import Mathlib

/-!
Verification model of the zeva-agent-extension gateway server.

The server (an Express application) exposes:
- `GET /auth/authorization` and `GET /auth/callback`: an OAuth2
  authorization-code login flow against GitHub;
- `POST /agent`: an authenticated streaming proxy to the Copilot chat
  completion API, injecting three fixed system messages;
- `POST /query`: a JSON-RPC-style tool-protocol dispatcher with methods
  `initialize`, `notifications/initialized`, `tools/list` and `retrieve`.

External collaborators (the identity provider's token endpoint, the
user-info endpoint, the upstream completion API, and the retrieval
backend `retrieveFromYourIndex`) are modelled as oracle parameters:
the theorems quantify over every possible behaviour of those services.
-/

namespace Zeva

/-- JavaScript truthiness of an optional string value: `undefined` and the
empty string are falsy, every other string is truthy. -/
def jsTruthy : Option String → Bool
  | none => false
  | some s => !(s = "")

/-- JavaScript string interpolation of a possibly-undefined value, as in a
template literal: `undefined` prints as the text "undefined". -/
def jsShow : Option String → String
  | none => "undefined"
  | some s => s

/-- JavaScript `String.prototype.trim`: remove leading and trailing
whitespace. Implemented over the character list so that it evaluates inside
the kernel. -/
def jsTrim (s : String) : String :=
  String.mk (((s.data.dropWhile Char.isWhitespace).reverse.dropWhile
    Char.isWhitespace).reverse)

/-! ## Cookies -/

/-- The cookie jar carried by the browser: name-value pairs. -/
abbrev CookieJar := List (String × String)

/-- Read a cookie by name (first entry wins, names are unique in practice). -/
def cookieGet (jar : CookieJar) (name : String) : Option String :=
  (jar.find? (fun p => p.1 = name)).map (·.2)

/-- A cookie mutation performed by a response (`res.cookie`). The handlers
under study never call `res.clearCookie`, so setting is the only operation. -/
inductive CookieOp where
  | set (name value : String)
deriving DecidableEq

/-- Apply one cookie operation to the jar. -/
def applyCookieOp (jar : CookieJar) : CookieOp → CookieJar
  | .set n v =>
    if jar.any (fun p => p.1 = n) then
      jar.map (fun p => if p.1 = n then (n, v) else p)
    else jar ++ [(n, v)]

/-- Apply the cookie operations of a response to the jar, in order. -/
def applyCookieOps (ops : List CookieOp) (jar : CookieJar) : CookieJar :=
  ops.foldl applyCookieOp jar

/-! ## OAuth callback (`GET /auth/callback`) -/

/-- JSON body returned by the provider's token-exchange endpoint, as
destructured by the handler: `access_token` and `error` fields, either of
which may be absent. -/
structure TokenResponse where
  access_token : Option String
  error : Option String
deriving DecidableEq

/-- Observable outcome of one `GET /auth/callback` request: the HTTP status,
whether the POST to the token-exchange endpoint was issued, the cookie
operations performed on the response, and the redirect target if any. -/
structure CallbackOutcome where
  status : Nat
  tokenExchangeCalled : Bool
  cookieOps : List CookieOp
  redirect : Option String
deriving DecidableEq

/-- The handler's guard, line for line:
`if (!code || !state || state !== savedState)`. JavaScript strict
inequality between a possibly-undefined `state` and a possibly-undefined
`savedState` is exactly inequality of optional strings. -/
def invalidCallback (code state savedState : Option String) : Bool :=
  !(jsTruthy code) || !(jsTruthy state) || state != savedState

/-- The `GET /auth/callback` handler. `code` and `state` are the query
parameters, `jar` the request's cookies, and `exchange` the body the
token-exchange endpoint would answer with (an oracle: it is only consulted
when the handler actually issues the POST). On guard failure the handler
answers 400 before any exchange; a provider error or missing token raises
and is answered with 500; on success the token is stored in the
`github_token` cookie and the browser is redirected to the root. The
`oauth_state` cookie is read but never cleared. -/
def completeLogin (code state : Option String) (jar : CookieJar)
    (exchange : TokenResponse) : CallbackOutcome :=
  if invalidCallback code state (cookieGet jar "oauth_state") then
    { status := 400, tokenExchangeCalled := false, cookieOps := [], redirect := none }
  else if jsTruthy exchange.error || !(jsTruthy exchange.access_token) then
    { status := 500, tokenExchangeCalled := true, cookieOps := [], redirect := none }
  else
    { status := 302, tokenExchangeCalled := true,
      cookieOps := [.set "github_token" (exchange.access_token.getD "")],
      redirect := some "/" }

example :
    (completeLogin (some "c") (some "s") [("oauth_state", "s")]
      { access_token := some "tok", error := none }).status = 302 := by decide

example :
    (completeLogin none (some "s") [("oauth_state", "s")]
      { access_token := some "tok", error := none }).status = 400 := by decide

example : jsTrim "  a  " = "a" := by decide

/-! ## Chat proxy (`POST /agent`) -/

/-- A chat message: role-tagged text entry. -/
structure Message where
  role : String
  content : String
deriving DecidableEq

/-- The optional nested `config` object of the request body; only its
`model` field is consulted. -/
structure Config where
  model : Option String
deriving DecidableEq

/-- The JSON body of a `POST /agent` request, as the handler destructures
it: `messages` (`none` when the field is missing or not an array), the
optional top-level `model`, the optional nested `config`, an optional
client-supplied `stream` flag, and every remaining client field as opaque
key-value pairs. -/
structure ChatBody where
  messages : Option (List Message)
  model : Option String
  config : Option Config
  stream : Option Bool
  extra : List (String × String)
deriving DecidableEq

/-- JavaScript `a || b` specialised to an optional string on the left:
`undefined` and the empty string fall through to the right operand. -/
def jsStrOr : Option String → String → String
  | some s, b => if s = "" then b else s
  | none, b => b

/-- Model selection, line for line:
`bodyModel?.trim() || config?.model?.trim() || DEFAULT_MODEL`. -/
def resolveModel (bodyModel : Option String) (config : Option Config)
    (defaultModel : String) : String :=
  jsStrOr (bodyModel.map jsTrim)
    (jsStrOr ((config.bind Config.model).map jsTrim) defaultModel)

/-- The three system prompts the handler builds for the resolved user
handle and the startup-loaded project context. -/
def systemPrompts (login context : String) : List Message :=
  [ { role := "system", content := "Start every response with: @" ++ login },
    { role := "system",
      content := "You are an expert assistant specializing in distributed systems and payments processing." },
    { role := "system", content := "Project-specific context:\n" ++ jsTrim context } ]

/-- The outbound body sent upstream: the object-spread of the client body
with `model`, `stream` and `messages` overridden; `config` and all other
client fields ride along verbatim. -/
structure OutboundBody where
  model : String
  stream : Bool
  messages : List Message
  config : Option Config
  extra : List (String × String)
deriving DecidableEq

/-- Build the outbound request from the client body (whose `messages`
field is the array `ms`):
spread of the body, then `model := selectedModel`, `stream := true`,
`messages := systemPrompts ++ ms`. -/
def buildOutbound (login context defaultModel : String) (body : ChatBody)
    (ms : List Message) : OutboundBody :=
  { model := resolveModel body.model body.config defaultModel,
    stream := true,
    messages := systemPrompts login context ++ ms,
    config := body.config,
    extra := body.extra }

/-! ### Response-header relay

`res.writeHead` receives an object literal holding the entry
`Content-Type: text/event-stream` followed by the spread of all upstream
headers; the entries are applied in insertion order, and Node's
`setHeader` is case-insensitive on names, so a later entry replaces an
earlier one of the same name. -/

/-- Lowercase a header name character by character; implemented over the
character list so that it evaluates inside the kernel. -/
def lowerName (s : String) : String :=
  String.mk (s.data.map Char.toLower)

/-- Node `setHeader`: replace the (first) entry whose name matches
case-insensitively, keeping its original spelling, or append a new entry.
Header stores built this way keep names unique up to case, so replacing
the first match is replacing the only match. -/
def setHeaderCI : List (String × String) → String → String → List (String × String)
  | [], k, v => [(k, v)]
  | p :: t, k, v =>
    if lowerName p.1 = lowerName k then (p.1, v) :: t else p :: setHeaderCI t k v

/-- The value a header store assigns to a name, case-insensitively (first
match wins, matching Node's lookup on a store with unique names). -/
def lookupCI (hs : List (String × String)) (q : String) : Option String :=
  (hs.find? (fun p => lowerName p.1 = lowerName q)).map (·.2)

/-- The last value a raw header list assigns to a name, case-insensitively:
when the same name occurs twice in an object literal, the later entry wins. -/
def lookupLastCI (hs : List (String × String)) (q : String) : Option String :=
  lookupCI hs.reverse q

/-- The headers the proxy sends to the caller: start from the literal
`Content-Type: text/event-stream` entry, then apply every upstream header
in order. -/
def relayHeaders (upstream : List (String × String)) : List (String × String) :=
  upstream.foldl (fun acc p => setHeaderCI acc p.1 p.2) [("Content-Type", "text/event-stream")]

/-- The upstream completion API's response: status, headers, and the body
as the finite sequence of chunks in which it arrives. -/
structure UpstreamResponse where
  status : Nat
  headers : List (String × String)
  chunks : List String
deriving DecidableEq

/-- What the caller receives on the streaming path: the status and headers
written by `writeHead`, and the body writes performed by the pipe — one
write per upstream chunk, in arrival order (the body is never buffered
into a single write). -/
structure RelayOutput where
  status : Nat
  headers : List (String × String)
  writes : List String
deriving DecidableEq

/-- Result of the `GET /user` identity call (an oracle): the resolved
login, or failure for an invalid token / transport error. -/
inductive IdentityResult where
  | ok (login : String)
  | invalid
deriving DecidableEq

/-- Observable outcome of one `POST /agent` request: HTTP status, whether
the identity endpoint was called, whether the upstream completion call was
attempted, the outbound body (when built), and the relayed stream (when
the upstream answered). -/
structure AgentOutcome where
  status : Nat
  identityCalled : Bool
  upstreamCalled : Bool
  outbound : Option OutboundBody
  relayed : Option RelayOutput
deriving DecidableEq

/-- The `POST /agent` handler.
`cookieToken` is the `github_token` cookie, `headerToken` the
`X-GitHub-Token` header; `identity` and `upstream` are the oracles for the
two external calls (`upstream = .error ()` is a transport failure caught
by the handler's try/catch). Control flow follows the source: token check,
identity call, `Array.isArray(messages)` check, outbound build, upstream
call, relay. -/
def handleAgent (context defaultModel : String)
    (cookieToken headerToken : Option String) (body : ChatBody)
    (identity : IdentityResult) (upstream : Except Unit UpstreamResponse) :
    AgentOutcome :=
  let token := if jsTruthy cookieToken then cookieToken else headerToken
  if !(jsTruthy token) then
    { status := 401, identityCalled := false, upstreamCalled := false,
      outbound := none, relayed := none }
  else
    match identity with
    | .invalid =>
      { status := 401, identityCalled := true, upstreamCalled := false,
        outbound := none, relayed := none }
    | .ok login =>
      match body.messages with
      | none =>
        { status := 400, identityCalled := true, upstreamCalled := false,
          outbound := none, relayed := none }
      | some ms =>
        let ob := buildOutbound login context defaultModel body ms
        match upstream with
        | .error _ =>
          { status := 500, identityCalled := true, upstreamCalled := true,
            outbound := some ob, relayed := none }
        | .ok resp =>
          { status := resp.status, identityCalled := true, upstreamCalled := true,
            outbound := some ob,
            relayed := some { status := resp.status,
                              headers := relayHeaders resp.headers,
                              writes := resp.chunks } }

example :
    (handleAgent "ctx" "gpt-4" none none
      { messages := some [], model := none, config := none, stream := none, extra := [] }
      (.ok "octocat") (.error ())).status = 401 := by decide

example :
    (handleAgent "ctx" "gpt-4" none (some "tok")
      { messages := some [], model := none, config := none, stream := none, extra := [] }
      (.ok "octocat")
      (.ok { status := 200, headers := [], chunks := ["a"] })).status = 200 := by decide

/-! ## Tool protocol (`POST /query`) -/

/-- The `params` object of a protocol request; only `query` is consulted,
and it may itself be absent. -/
structure QueryParams where
  query : Option String
deriving DecidableEq

/-- A `POST /query` body as the handler destructures it; every field may
be absent. -/
structure QueryRequest where
  jsonrpc : Option String
  id : Option String
  method : Option String
  params : Option QueryParams
deriving DecidableEq

/-- An item returned by the external retrieval backend; `id`, `cursor`
and `metadata` may be absent. -/
structure BackendItem where
  id : Option String
  cursor : Option String
  text : String
  metadata : Option (List (String × String))
deriving DecidableEq

/-- A document of the `retrieve` result. -/
structure Document where
  id : String
  cursor : String
  text : String
  metadata : List (String × String)
deriving DecidableEq

/-- Map one backend item at ordinal position `i` to a Document:
`id` and `cursor` default to the decimal position, `metadata` to an empty
mapping, `text` passes through. -/
def mapDocument (i : Nat) (d : BackendItem) : Document :=
  { id := d.id.getD (toString i),
    cursor := d.cursor.getD (toString i),
    text := d.text,
    metadata := d.metadata.getD [] }

/-- The indexed map `docs.map((d, i) => ...)` starting at position `i`. -/
def mapDocumentsFrom (i : Nat) : List BackendItem → List Document
  | [] => []
  | d :: ds => mapDocument i d :: mapDocumentsFrom (i + 1) ds

/-- `docs.map((d, i) => ...)`: every backend item mapped in order, indexed
from 0. -/
def mapDocuments (docs : List BackendItem) : List Document :=
  mapDocumentsFrom 0 docs

/-- A JSON-RPC error object. -/
structure RpcError where
  code : Int
  message : String
deriving DecidableEq

/-- The `result` member of a protocol reply. The `initialize` and
`tools/list` results are fixed constants in the source (protocol version,
capability flags, the single tool descriptor); the claims under study do
not inspect their fields, so they are represented as atomic tags. -/
inductive QueryResult where
  | initResult
  | toolsListing
  | retrieved (documents : List Document)
deriving DecidableEq

/-- The JSON body of a protocol reply. -/
structure JsonReply where
  jsonrpc : String
  id : Option String
  result : Option QueryResult
  error : Option RpcError
deriving DecidableEq

/-- A JavaScript runtime error escaping the handler. Reading a property of
`undefined` raises a TypeError; since the Express route is an async
function with no catch, the rejection never turns into a response. -/
inductive JsError where
  | typeErrorUndefined
deriving DecidableEq

/-- Observable outcome of one `POST /query` request: a JSON reply with its
HTTP status (`res.json` answers 200), the bare 204 of
`res.status(204).end()`, or an escaped runtime error (no response sent). -/
inductive QueryOutcome where
  | reply (status : Nat) (body : JsonReply)
  | noContent
  | thrown (e : JsError)
deriving DecidableEq

/-- The `POST /query` handler. `backend` is the external retrieval oracle
(`retrieveFromYourIndex`), taking the possibly-absent `params.query`.
Dispatch order follows the source: `initialize`,
`notifications/initialized`, `tools/list`, `retrieve`, then the
unknown-method error with code -32601 and the method interpolated into
the message. In the `retrieve` branch the source reads `params.query`
without checking `params`, so an absent `params` raises. -/
def handleQuery (backend : Option String → List BackendItem)
    (req : QueryRequest) : QueryOutcome :=
  if req.method = some "initialize" then
    .reply 200 { jsonrpc := "2.0", id := req.id, result := some .initResult, error := none }
  else if req.method = some "notifications/initialized" then
    .noContent
  else if req.method = some "tools/list" then
    .reply 200 { jsonrpc := "2.0", id := req.id, result := some .toolsListing, error := none }
  else if req.method = some "retrieve" then
    match req.params with
    | none => .thrown .typeErrorUndefined
    | some p =>
      .reply 200 { jsonrpc := "2.0", id := req.id,
                   result := some (.retrieved (mapDocuments (backend p.query))),
                   error := none }
  else
    .reply 200 { jsonrpc := "2.0", id := req.id, result := none,
                 error := some { code := -32601,
                                 message := "Method not found: " ++ jsShow req.method } }

example :
    handleQuery (fun _ => []) { jsonrpc := some "2.0", id := some "7", method := some "foo", params := none } =
      .reply 200 { jsonrpc := "2.0", id := some "7", result := none,
                   error := some { code := -32601, message := "Method not found: foo" } } := by
  decide

example : lowerName "Content-Type" = "content-type" := by decide

example :
    relayHeaders [("content-type", "application/json"), ("x-request-id", "r1")] =
      [("Content-Type", "application/json"), ("x-request-id", "r1")] := by decide

example : relayHeaders [] = [("Content-Type", "text/event-stream")] := by decide

/-! ## Helper lemmas on the header store -/

theorem lookupCI_nil (q : String) : lookupCI [] q = none := rfl

theorem lookupCI_cons (p : String × String) (t : List (String × String)) (q : String) :
    lookupCI (p :: t) q =
      if lowerName p.1 = lowerName q then some p.2 else lookupCI t q := by
  by_cases h : lowerName p.1 = lowerName q <;> simp [lookupCI, List.find?_cons, h]

theorem lookupCI_append (l₁ l₂ : List (String × String)) (q : String) :
    lookupCI (l₁ ++ l₂) q =
      match lookupCI l₁ q with
      | some v => some v
      | none => lookupCI l₂ q := by
  induction l₁ with
  | nil => simp [lookupCI_nil]
  | cons p t ih =>
    rw [List.cons_append, lookupCI_cons, lookupCI_cons]
    by_cases h : lowerName p.1 = lowerName q
    · simp [h]
    · simp [h, ih]

theorem lookupLastCI_cons (p : String × String) (t : List (String × String)) (q : String) :
    lookupLastCI (p :: t) q =
      match lookupLastCI t q with
      | some v => some v
      | none => if lowerName p.1 = lowerName q then some p.2 else none := by
  unfold lookupLastCI
  rw [List.reverse_cons, lookupCI_append]
  cases lookupCI t.reverse q <;> simp [lookupCI_cons, lookupCI_nil]

theorem lookupCI_setHeaderCI (hs : List (String × String)) (k v q : String) :
    lookupCI (setHeaderCI hs k v) q =
      if lowerName q = lowerName k then some v else lookupCI hs q := by
  induction hs with
  | nil =>
    rw [setHeaderCI, lookupCI_cons, lookupCI_nil]
    by_cases h : lowerName q = lowerName k
    · rw [if_pos (show lowerName (k, v).1 = lowerName q from h.symm), if_pos h]
    · rw [if_neg (show ¬ lowerName (k, v).1 = lowerName q from fun hh => h hh.symm),
        if_neg h]
  | cons p t ih =>
    rw [setHeaderCI]
    by_cases hpk : lowerName p.1 = lowerName k
    · rw [if_pos hpk, lookupCI_cons, lookupCI_cons]
      by_cases hqk : lowerName q = lowerName k
      · rw [if_pos (hpk.trans hqk.symm), if_pos (hpk.trans hqk.symm), if_pos hqk]
      · have hpq : ¬ lowerName p.1 = lowerName q := fun hh => hqk (hh.symm.trans hpk)
        rw [if_neg hpq, if_neg hpq, if_neg hqk]
    · rw [if_neg hpk, lookupCI_cons, lookupCI_cons, ih]
      by_cases hpq : lowerName p.1 = lowerName q
      · have hqk : ¬ lowerName q = lowerName k := fun hh => hpk (hpq.trans hh)
        rw [if_pos hpq, if_pos hpq, if_neg hqk]
      · rw [if_neg hpq, if_neg hpq]

theorem lookupCI_foldl_setHeader (H acc : List (String × String)) (q : String) :
    lookupCI (H.foldl (fun a p => setHeaderCI a p.1 p.2) acc) q =
      match lookupLastCI H q with
      | some v => some v
      | none => lookupCI acc q := by
  induction H generalizing acc with
  | nil => simp [lookupLastCI, lookupCI_nil]
  | cons p t ih =>
    rw [List.foldl_cons, ih, lookupLastCI_cons]
    cases hlt : lookupLastCI t q with
    | some v => simp
    | none =>
      rw [lookupCI_setHeaderCI]
      by_cases h : lowerName q = lowerName p.1
      · rw [if_pos h, if_pos h.symm]
      · rw [if_neg h, if_neg (fun hh => h hh.symm)]

/-- Characterization of the headers sent to the caller: each name gets the
last value the upstream assigns to it; a name the upstream does not define
is absent, except Content-Type, which defaults to text/event-stream. -/
theorem lookupCI_relayHeaders (H : List (String × String)) (q : String) :
    lookupCI (relayHeaders H) q =
      match lookupLastCI H q with
      | some v => some v
      | none => if lowerName q = "content-type" then some "text/event-stream" else none := by
  rw [relayHeaders, lookupCI_foldl_setHeader]
  cases lookupLastCI H q with
  | some v => rfl
  | none =>
    show lookupCI [("Content-Type", "text/event-stream")] q = _
    rw [lookupCI_cons, lookupCI_nil]
    by_cases h : lowerName q = "content-type"
    · rw [if_pos h, if_pos (show lowerName "Content-Type" = lowerName q by rw [h]; rfl)]
    · rw [if_neg h, if_neg (fun hh => h (by rw [← hh]; rfl))]

/-! ## Helper lemmas on document mapping -/

theorem mapDocumentsFrom_getElem? (docs : List BackendItem) (k i : Nat) :
    (mapDocumentsFrom k docs)[i]? = (docs[i]?).map (fun d => mapDocument (k + i) d) := by
  induction docs generalizing k i with
  | nil => simp [mapDocumentsFrom]
  | cons d ds ih =>
    cases i with
    | zero => simp [mapDocumentsFrom]
    | succ n =>
      rw [mapDocumentsFrom]
      simp only [List.getElem?_cons_succ]
      rw [ih (k + 1) n]
      have hkn : k + 1 + n = k + (n + 1) := by omega
      rw [hkn]

theorem mapDocuments_getElem? (docs : List BackendItem) (i : Nat) :
    (mapDocuments docs)[i]? = (docs[i]?).map (mapDocument i) := by
  have h := mapDocumentsFrom_getElem? docs 0 i
  simpa [mapDocuments] using h

/-! ## Claim theorems -/

/-- C1: whenever the callback's `code` query parameter is absent, its
`state` query parameter is absent, or the returned state differs from the
state saved in the caller's `oauth_state` cookie, the handler answers
HTTP 400 and never issues the POST to the token-exchange endpoint. -/
theorem callback_rejects_invalid_state (code state : Option String)
    (jar : CookieJar) (exch : TokenResponse)
    (h : code = none ∨ state = none ∨ state ≠ cookieGet jar "oauth_state") :
    (completeLogin code state jar exch).status = 400 ∧
    (completeLogin code state jar exch).tokenExchangeCalled = false := by
  have hg : invalidCallback code state (cookieGet jar "oauth_state") = true := by
    rcases h with h | h | h
    · simp [invalidCallback, h, jsTruthy]
    · simp [invalidCallback, h, jsTruthy]
    · simp [invalidCallback, bne_iff_ne, h]
  rw [completeLogin, if_pos hg]
  exact ⟨rfl, rfl⟩

/-- C1 witness: a concrete callback with no `code` parameter is rejected
with 400 and no token exchange. -/
theorem callback_rejects_invalid_state_witness :
    (completeLogin none (some "s") [("oauth_state", "s")]
        { access_token := some "tok", error := none }).status = 400 ∧
    (completeLogin none (some "s") [("oauth_state", "s")]
        { access_token := some "tok", error := none }).tokenExchangeCalled = false :=
  callback_rejects_invalid_state none (some "s") [("oauth_state", "s")]
    { access_token := some "tok", error := none } (Or.inl rfl)

/-- First callback of the replay scenario: valid `code=c`, `state=s`, with
the `oauth_state` cookie holding `s`, and a successful token exchange. -/
def replayFirst : CallbackOutcome :=
  completeLogin (some "c") (some "s") [("oauth_state", "s")]
    { access_token := some "tok", error := none }

/-- The caller's cookie jar after the first callback completed. -/
def replayJar : CookieJar :=
  applyCookieOps replayFirst.cookieOps [("oauth_state", "s")]

/-- A later callback replaying the same `state=s` against the jar left by
the first callback. -/
def replaySecond : CallbackOutcome :=
  completeLogin (some "c2") (some "s") replayJar
    { access_token := some "tok2", error := none }

/-- C2: the code never consumes the `oauth_state` value. The first
callback succeeds, yet the `oauth_state` cookie still holds `s`
afterwards (the handler sets only `github_token` and never clears the
state cookie), so a replayed callback presenting the same state is
accepted again and triggers a second token exchange. -/
theorem oauth_state_not_consumed :
    replayFirst.status = 302 ∧
    cookieGet replayJar "oauth_state" = some "s" ∧
    replaySecond.tokenExchangeCalled = true ∧
    replaySecond.status = 302 := by decide

/-- C3 counterexample: a successful chat request whose upstream response
carries no headers at all. The caller nevertheless receives the header
`Content-Type: text/event-stream`, so the header set sent to the caller
does not equal the upstream's header set. -/
theorem relay_headers_counterexample :
    (handleAgent "ctx" "gpt-4" none (some "tok")
        { messages := some [], model := none, config := none, stream := none, extra := [] }
        (.ok "octocat")
        (.ok { status := 200, headers := [], chunks := ["data: hi\n\n"] })).relayed =
      some { status := 200, headers := [("Content-Type", "text/event-stream")],
             writes := ["data: hi\n\n"] } ∧
    lookupCI [("Content-Type", "text/event-stream")] "content-type" =
      some "text/event-stream" ∧
    lookupCI ([] : List (String × String)) "content-type" = none := by decide

/-- C3 (amended): for every successful chat request the status sent to the
caller equals the upstream status, the body is forwarded as one write per
upstream chunk in arrival order (never buffered into a single write), and
the response headers give every name the value the upstream assigns it;
a name the upstream does not define is absent from the response, except
Content-Type, which defaults to `text/event-stream` when the upstream does
not supply one. -/
theorem relay_status_headers_stream (context defaultModel : String)
    (cookieToken headerToken : Option String) (body : ChatBody)
    (login : String) (ms : List Message) (up : UpstreamResponse)
    (htok : jsTruthy (if jsTruthy cookieToken then cookieToken else headerToken) = true)
    (hms : body.messages = some ms) :
    (handleAgent context defaultModel cookieToken headerToken body
        (.ok login) (.ok up)).status = up.status ∧
    (handleAgent context defaultModel cookieToken headerToken body
        (.ok login) (.ok up)).relayed =
      some { status := up.status, headers := relayHeaders up.headers,
             writes := up.chunks } ∧
    ∀ q, lookupCI (relayHeaders up.headers) q =
      match lookupLastCI up.headers q with
      | some v => some v
      | none => if lowerName q = "content-type" then some "text/event-stream" else none := by
  refine ⟨?_, ?_, fun q => lookupCI_relayHeaders up.headers q⟩ <;>
    simp [handleAgent, htok, hms]

/-- C3 witness: the amended relay property at a concrete request and a
concrete upstream response. -/
theorem relay_status_headers_stream_witness :
    (handleAgent "ctx" "gpt-4" (some "tok") none
        { messages := some [], model := none, config := none, stream := none, extra := [] }
        (.ok "octocat")
        (.ok { status := 201, headers := [("content-type", "application/json"), ("x-request-id", "r1")],
               chunks := ["c1", "c2"] })).status = 201 ∧
    (handleAgent "ctx" "gpt-4" (some "tok") none
        { messages := some [], model := none, config := none, stream := none, extra := [] }
        (.ok "octocat")
        (.ok { status := 201, headers := [("content-type", "application/json"), ("x-request-id", "r1")],
               chunks := ["c1", "c2"] })).relayed =
      some { status := 201,
             headers := relayHeaders [("content-type", "application/json"), ("x-request-id", "r1")],
             writes := ["c1", "c2"] } ∧
    ∀ q, lookupCI (relayHeaders [("content-type", "application/json"), ("x-request-id", "r1")]) q =
      match lookupLastCI [("content-type", "application/json"), ("x-request-id", "r1")] q with
      | some v => some v
      | none => if lowerName q = "content-type" then some "text/event-stream" else none :=
  relay_status_headers_stream "ctx" "gpt-4" (some "tok") none
    { messages := some [], model := none, config := none, stream := none, extra := [] }
    "octocat" []
    { status := 201, headers := [("content-type", "application/json"), ("x-request-id", "r1")],
      chunks := ["c1", "c2"] }
    (by decide) rfl

/-- C4: for every successful chat request the outbound body is the client
body with exactly the three system entries — handle personalization,
domain specialization, project context, in that order — prepended ahead of
all client messages, `stream` forced to `true`, `model` set to the
resolved value, and the remaining client fields (`config` and all extra
fields) preserved verbatim. -/
theorem outbound_request_shape (context defaultModel : String)
    (cookieToken headerToken : Option String) (body : ChatBody)
    (login : String) (ms : List Message)
    (upstream : Except Unit UpstreamResponse)
    (htok : jsTruthy (if jsTruthy cookieToken then cookieToken else headerToken) = true)
    (hms : body.messages = some ms) :
    (handleAgent context defaultModel cookieToken headerToken body
        (.ok login) upstream).outbound =
      some { model := resolveModel body.model body.config defaultModel,
             stream := true,
             messages :=
               [ { role := "system", content := "Start every response with: @" ++ login },
                 { role := "system",
                   content := "You are an expert assistant specializing in distributed systems and payments processing." },
                 { role := "system", content := "Project-specific context:\n" ++ jsTrim context } ]
               ++ ms,
             config := body.config,
             extra := body.extra } := by
  cases upstream <;> simp [handleAgent, htok, hms, buildOutbound, systemPrompts]

/-- C4 witness: the outbound shape at a concrete request carrying a client
message, a client model, a nested config, a client `stream := false`, and
an extra pass-through field. -/
theorem outbound_request_shape_witness :
    (handleAgent "my context" "gpt-4" (some "tok") none
        { messages := some [{ role := "user", content := "hi" }],
          model := some "m1", config := some { model := some "m2" },
          stream := some false, extra := [("temperature", "0.2")] }
        (.ok "octocat")
        (.ok { status := 200, headers := [], chunks := [] })).outbound =
      some { model := resolveModel (some "m1") (some { model := some "m2" }) "gpt-4",
             stream := true,
             messages :=
               [ { role := "system", content := "Start every response with: @" ++ "octocat" },
                 { role := "system",
                   content := "You are an expert assistant specializing in distributed systems and payments processing." },
                 { role := "system", content := "Project-specific context:\n" ++ jsTrim "my context" } ]
               ++ [{ role := "user", content := "hi" }],
             config := some { model := some "m2" },
             extra := [("temperature", "0.2")] } :=
  outbound_request_shape "my context" "gpt-4" (some "tok") none
    { messages := some [{ role := "user", content := "hi" }],
      model := some "m1", config := some { model := some "m2" },
      stream := some false, extra := [("temperature", "0.2")] }
    "octocat" [{ role := "user", content := "hi" }]
    (.ok { status := 200, headers := [], chunks := [] })
    (by decide) rfl

/-- C5: model resolution priority — body model wins over config model,
config model wins over the process default, and the default is used when
both are absent. -/
theorem model_resolution_priority :
    resolveModel (some "a") (some { model := some "b" }) "c" = "a" ∧
    resolveModel none (some { model := some "b" }) "c" = "b" ∧
    resolveModel none none "c" = "c" := by decide

/-- C6: a chat request carrying neither a token cookie nor a token header
is answered 401 with no identity call and no upstream call, whatever the
rest of the request and whatever the external services would answer. -/
theorem agent_unauthorized_without_token (context defaultModel : String)
    (body : ChatBody) (identity : IdentityResult)
    (upstream : Except Unit UpstreamResponse) :
    handleAgent context defaultModel none none body identity upstream =
      { status := 401, identityCalled := false, upstreamCalled := false,
        outbound := none, relayed := none } := rfl

/-- C7: a protocol request whose method is none of the four recognized
methods is answered with HTTP 200 carrying a JSON-RPC error object of
code -32601 whose message names the method, with the request's `id`
echoed unchanged. -/
theorem query_unknown_method (backend : Option String → List BackendItem)
    (req : QueryRequest)
    (h1 : req.method ≠ some "initialize")
    (h2 : req.method ≠ some "notifications/initialized")
    (h3 : req.method ≠ some "tools/list")
    (h4 : req.method ≠ some "retrieve") :
    handleQuery backend req =
      .reply 200 { jsonrpc := "2.0", id := req.id, result := none,
                   error := some { code := -32601,
                                   message := "Method not found: " ++ jsShow req.method } } := by
  rw [handleQuery, if_neg (by simpa using h1), if_neg (by simpa using h2),
    if_neg (by simpa using h3), if_neg (by simpa using h4)]

/-- C7 witness: the unrecognized method "foo" gets the -32601 error with
its id echoed. -/
theorem query_unknown_method_witness :
    handleQuery (fun _ => [])
        { jsonrpc := some "2.0", id := some "7", method := some "foo", params := none } =
      .reply 200 { jsonrpc := "2.0", id := some "7", result := none,
                   error := some { code := -32601, message := "Method not found: " ++ jsShow (some "foo") } } :=
  query_unknown_method (fun _ => [])
    { jsonrpc := some "2.0", id := some "7", method := some "foo", params := none }
    (by decide) (by decide) (by decide) (by decide)

/-- C8: a `retrieve` invocation answers with the backend items mapped to
Documents in order, and an item lacking `id`, `cursor` and `metadata` at
ordinal position 2 maps to id "2", cursor "2", empty metadata, with its
`text` passed through unchanged. -/
theorem retrieve_document_mapping (backend : Option String → List BackendItem)
    (req : QueryRequest) (p : QueryParams) (d : BackendItem)
    (hm : req.method = some "retrieve") (hp : req.params = some p)
    (h2 : (backend p.query)[2]? = some d)
    (hid : d.id = none) (hcur : d.cursor = none) (hmeta : d.metadata = none) :
    handleQuery backend req =
      .reply 200 { jsonrpc := "2.0", id := req.id,
                   result := some (.retrieved (mapDocuments (backend p.query))),
                   error := none } ∧
    (∀ i, (mapDocuments (backend p.query))[i]? = ((backend p.query)[i]?).map (mapDocument i)) ∧
    (mapDocuments (backend p.query))[2]? =
      some { id := "2", cursor := "2", text := d.text, metadata := [] } := by
  refine ⟨?_, fun i => mapDocuments_getElem? _ i, ?_⟩
  · simp [handleQuery, hm, hp]
  · rw [mapDocuments_getElem?, h2]
    simp [mapDocument, hid, hcur, hmeta]
    rfl

/-- The backend answer used by the C8 witness: its item at position 2
lacks `id`, `cursor` and `metadata`. -/
def witnessItems : List BackendItem :=
  [ { id := some "a", cursor := some "ca", text := "t0", metadata := some [("k", "v")] },
    { id := none, cursor := none, text := "t1", metadata := none },
    { id := none, cursor := none, text := "t2", metadata := none } ]

/-- C8 witness: the document mapping at a concrete `retrieve` request and
a concrete backend answer. -/
theorem retrieve_document_mapping_witness :
    handleQuery (fun _ => witnessItems)
        { jsonrpc := some "2.0", id := some "1", method := some "retrieve",
          params := some { query := some "q" } } =
      .reply 200 { jsonrpc := "2.0", id := some "1",
                   result := some (.retrieved (mapDocuments witnessItems)),
                   error := none } ∧
    (∀ i, (mapDocuments witnessItems)[i]? = (witnessItems[i]?).map (mapDocument i)) ∧
    (mapDocuments witnessItems)[2]? =
      some { id := "2", cursor := "2", text := "t2", metadata := [] } :=
  retrieve_document_mapping (fun _ => witnessItems)
    { jsonrpc := some "2.0", id := some "1", method := some "retrieve",
      params := some { query := some "q" } }
    { query := some "q" }
    { id := none, cursor := none, text := "t2", metadata := none }
    rfl rfl rfl rfl rfl rfl

/-- C9: when the state guard passes but the token exchange fails — the
provider reports an error or omits the access token — the callback
answers HTTP 500 after having issued the exchange, and performs no cookie
write at all (in particular no token cookie is set). -/
theorem token_exchange_failure_no_cookie (code state : Option String)
    (jar : CookieJar) (exch : TokenResponse)
    (hvalid : invalidCallback code state (cookieGet jar "oauth_state") = false)
    (hfail : jsTruthy exch.error = true ∨ exch.access_token = none) :
    (completeLogin code state jar exch).status = 500 ∧
    (completeLogin code state jar exch).cookieOps = [] ∧
    (completeLogin code state jar exch).tokenExchangeCalled = true := by
  have hthrow : (jsTruthy exch.error || !(jsTruthy exch.access_token)) = true := by
    rcases hfail with h | h
    · simp [h]
    · simp [h, jsTruthy]
  rw [completeLogin, if_neg (by simp [hvalid]), if_pos hthrow]
  exact ⟨rfl, rfl, rfl⟩

/-- C9 witness: a valid-state callback whose exchange answers an error and
no token is answered 500 with no cookie write. -/
theorem token_exchange_failure_no_cookie_witness :
    (completeLogin (some "c") (some "s") [("oauth_state", "s")]
        { access_token := none, error := some "bad_verification_code" }).status = 500 ∧
    (completeLogin (some "c") (some "s") [("oauth_state", "s")]
        { access_token := none, error := some "bad_verification_code" }).cookieOps = [] ∧
    (completeLogin (some "c") (some "s") [("oauth_state", "s")]
        { access_token := none, error := some "bad_verification_code" }).tokenExchangeCalled = true :=
  token_exchange_failure_no_cookie (some "c") (some "s") [("oauth_state", "s")]
    { access_token := none, error := some "bad_verification_code" }
    (by decide) (Or.inr rfl)

/-- C10: a `retrieve` request with no `params` object makes the handler's
`params.query` dereference raise, so the call ends in an escaped runtime
error and no structured JSON-RPC response is produced. -/
theorem retrieve_missing_params_throws (backend : Option String → List BackendItem)
    (req : QueryRequest)
    (hm : req.method = some "retrieve") (hp : req.params = none) :
    handleQuery backend req = .thrown .typeErrorUndefined := by
  simp [handleQuery, hm, hp]

/-- C10 witness: a concrete `retrieve` request lacking `params` ends in
the escaped TypeError. -/
theorem retrieve_missing_params_throws_witness :
    handleQuery (fun _ => [])
        { jsonrpc := some "2.0", id := some "3", method := some "retrieve", params := none } =
      .thrown .typeErrorUndefined :=
  retrieve_missing_params_throws (fun _ => [])
    { jsonrpc := some "2.0", id := some "3", method := some "retrieve", params := none }
    rfl rfl

end Zeva
